import Mathlib

/-!
# Coordinator queue listener

A shallow embedding of `src/distributed/coordinator/queuelistener.go`:
the discovery broadcast (`DiscoverSensors`), the discovery loop
(`ListenForNewSource`) and the per-source listener (`AddListener`).

Conventions of the embedding.

* A Go `string` and a Go `[]byte` with the same bytes are one Lean `String`,
  so the conversion `string(msg.Body)` is `msg.Body`.
* A value of type `<-chan amqp.Delivery` is an `Option Chan`; `none` is the
  nil channel.  An `error` is an `Option Error`; `none` is the nil error.
* The broker, the gob decoder and the event aggregator are outside the file.
  The broker and the decoder are parameters (`Broker`, `Decoder`); every call
  the coordinator makes on the outside world is appended, in program order, to
  the `trace` of the listener state, together with the registry writes and
  the goroutine starts.
* Output on stdout (`fmt.Println`, `fmt.Printf`) is not recorded.
-/

namespace Coordinator

/-- Go `error` payload; a returned error is an `Option Error`. -/
abbrev Error := String

/-- Handle of a delivery channel handed out by `Channel.Consume`. -/
structure Chan where
  id : Nat
deriving DecidableEq, Repr

/-- Go value of type `<-chan amqp.Delivery`; `none` is the nil channel. -/
abbrev DeliveryChan := Option Chan

/-- The fields of `amqp.Delivery` that the coordinator reads. -/
structure Delivery where
  Body : String
  RoutingKey : String
deriving DecidableEq, Repr

/-- Modelled from the spec: `dto.SensorMessage` is declared in package `dto`,
outside this file; the spec gives the reading the fields Name (string),
Timestamp (time value) and Value (numeric).  `Value` holds the bit pattern of
the `float64`, `Timestamp` the instant as an integer; both are only copied. -/
structure SensorMessage where
  Name : String
  Value : Nat
  Timestamp : Int
deriving DecidableEq, Repr

/-- Result of `new(dto.SensorMessage)`: every field at its zero value. -/
def SensorMessage.new : SensorMessage := { Name := "", Value := 0, Timestamp := 0 }

/-- Modelled from the spec: `EventData` is declared elsewhere in package
`coordinator`; its fields are the three that `AddListener` sets, with the
types of the corresponding `SensorMessage` fields. -/
structure EventData where
  Name : String
  Timestamp : Int
  Value : Nat
deriving DecidableEq, Repr

/-- The `interface{}` argument of `PublishEvent`: the coordinator passes either
a source name or an `EventData`. -/
inductive Payload where
  | source (s : String)
  | data (ed : EventData)
deriving DecidableEq, Repr

/-- Everything the coordinator does that is visible outside the running
function, one constructor per kind of call or statement. -/
inductive Effect where
  | exchangeDeclare (name kind : String) (durable autoDelete internal noWait : Bool)
  | publish (exchange key : String) (mandatory immediate : Bool) (body : String)
  | getQueue (name : String) (autoDelete : Bool)
  | queueBind (name key exchange : String) (noWait : Bool)
  | consume (queue consumer : String) (autoAck exclusive noLocal noWait : Bool)
  | publishEvent (eventName : String) (data : Payload)
  | store (key : String) (ch : DeliveryChan)
  | go (ch : DeliveryChan)
deriving DecidableEq, Repr

/-- The broker as the coordinator sees it.  Each reply is a function of the
trace up to and including the call being answered, so a broker may answer the
same call differently at different times.  `GetQueue` stands for
`qutils.GetQueue` (declared outside this file) and yields `q.Name`;
`deliveries c` is the sequence of deliveries read from channel `c` until it is
closed. -/
structure Broker where
  ExchangeDeclare : List Effect → Option Error
  Publish : List Effect → Option Error
  GetQueue : List Effect → String
  QueueBind : List Effect → Option Error
  Consume : List Effect → DeliveryChan × Option Error
  deliveries : Chan → List Delivery

/-- The messages a `for msg := range ch` loop iterates over: a nil channel
never yields one. -/
def Broker.range (br : Broker) : DeliveryChan → List Delivery
  | none => []
  | some c => br.deliveries c

/-- The gob decoder: `Decode body sd` is the content of the struct after
`gob.NewDecoder(bytes.NewReader(body)).Decode(sd)` and the error returned. -/
structure Decoder where
  Decode : String → SensorMessage → SensorMessage × Option Error

/-- The Go map `map[string]<-chan amqp.Delivery`: `none` is a missing key. -/
abbrev SourceMap := String → Option DeliveryChan

/-- Index expression `m[k]`: the zero value (nil channel) for a missing key. -/
def SourceMap.index (m : SourceMap) (k : String) : DeliveryChan :=
  (m k).getD none

/-- Assignment `m[k] = v`. -/
def SourceMap.assign (m : SourceMap) (k : String) (v : DeliveryChan) : SourceMap :=
  Function.update m k (some v)

/-- State of a `QueueListener` and the trace of what it has done so far
(oldest first). -/
structure QueueListener where
  sources : SourceMap
  trace : List Effect

/-- Constructor `NewQueueListener`: an empty registry, nothing done yet. -/
def NewQueueListener : QueueListener :=
  { sources := fun _ => none, trace := [] }

namespace QueueListener

/-- Appends one effect to the trace. -/
def record (ql : QueueListener) (e : Effect) : QueueListener :=
  { ql with trace := ql.trace ++ [e] }

/-- Modelled from the spec: `EventAggregator.PublishEvent` is declared outside
this file; the event sink accepts a named event with an arbitrary payload. -/
def PublishEvent (ql : QueueListener) (eventName : String) (data : Payload) :
    QueueListener :=
  ql.record (.publishEvent eventName data)

/-- Call `ql.ch.ExchangeDeclare(...)`. -/
def ExchangeDeclare (br : Broker) (ql : QueueListener) (name kind : String)
    (durable autoDelete internal noWait : Bool) : Option Error × QueueListener :=
  let ql1 := ql.record (.exchangeDeclare name kind durable autoDelete internal noWait)
  (br.ExchangeDeclare ql1.trace, ql1)

/-- Call `ql.ch.Publish(...)` with an empty `amqp.Publishing`. -/
def Publish (br : Broker) (ql : QueueListener) (exchange key : String)
    (mandatory immediate : Bool) (body : String) : Option Error × QueueListener :=
  let ql1 := ql.record (.publish exchange key mandatory immediate body)
  (br.Publish ql1.trace, ql1)

/-- Call `qutils.GetQueue(name, ql.ch, autoDelete)`; the result is `q.Name`. -/
def GetQueue (br : Broker) (ql : QueueListener) (name : String) (autoDelete : Bool) :
    String × QueueListener :=
  let ql1 := ql.record (.getQueue name autoDelete)
  (br.GetQueue ql1.trace, ql1)

/-- Call `ql.ch.QueueBind(...)`. -/
def QueueBind (br : Broker) (ql : QueueListener) (name key exchange : String)
    (noWait : Bool) : Option Error × QueueListener :=
  let ql1 := ql.record (.queueBind name key exchange noWait)
  (br.QueueBind ql1.trace, ql1)

/-- Call `ql.ch.Consume(...)`. -/
def Consume (br : Broker) (ql : QueueListener) (queue consumer : String)
    (autoAck exclusive noLocal noWait : Bool) :
    (DeliveryChan × Option Error) × QueueListener :=
  let ql1 := ql.record (.consume queue consumer autoAck exclusive noLocal noWait)
  (br.Consume ql1.trace, ql1)

/-- Statement `ql.sources[key] = ch`. -/
def setSource (ql : QueueListener) (key : String) (ch : DeliveryChan) : QueueListener :=
  { sources := ql.sources.assign key ch, trace := ql.trace ++ [.store key ch] }

/-- Statement `go ql.AddListener(ch)`: the start of the goroutine. -/
def goAddListener (ql : QueueListener) (ch : DeliveryChan) : QueueListener :=
  ql.record (.go ch)

end QueueListener

open QueueListener

/-- Method `DiscoverSensors`: declares the fanout exchange, then publishes an
empty message to it.  Both results are dropped.  The exchange name
`qutils.SensorDiscoveryExchange` is declared outside this file and is a
parameter. -/
def DiscoverSensors (SensorDiscoveryExchange : String) (br : Broker)
    (ql : QueueListener) : QueueListener :=
  let (_, ql1) := ql.ExchangeDeclare br SensorDiscoveryExchange "fanout" false false false false
  let (_, ql2) := ql1.Publish br SensorDiscoveryExchange "" false false ""
  ql2

/-- Body of the `for msg := range msgs` loop of `ListenForNewSource`. -/
def ListenForNewSource.loopBody (br : Broker) (ql : QueueListener) (msg : Delivery) :
    QueueListener :=
  if ql.sources.index msg.Body = none then
    let ql1 := ql.PublishEvent "DataSourceDiscovered" (.source msg.Body)
    let ((sourceChan, _), ql2) := ql1.Consume br msg.Body "" true false false false
    let ql3 := ql2.setSource msg.Body sourceChan
    ql3.goAddListener sourceChan
  else
    ql

/-- The `for msg := range msgs` loop of `ListenForNewSource`, run over the
deliveries `msgs` read from the discovery queue. -/
def ListenForNewSource.loop (br : Broker) (ql : QueueListener) (msgs : List Delivery) :
    QueueListener :=
  msgs.foldl (ListenForNewSource.loopBody br) ql

/-- Method `ListenForNewSource`: sets up the discovery queue, broadcasts the
discovery request and runs the loop over the deliveries of `msgs`. -/
def ListenForNewSource (SensorDiscoveryExchange : String) (br : Broker)
    (ql : QueueListener) : QueueListener :=
  let (qName, ql1) := ql.GetQueue br "" true
  let (_, ql2) := ql1.QueueBind br qName "" "amq.fanout" false
  let ((msgs, _), ql3) := ql2.Consume br qName "" true false false false
  let ql4 := DiscoverSensors SensorDiscoveryExchange br ql3
  ListenForNewSource.loop br ql4 (br.range msgs)

/-- Body of the `for msg := range msgs` loop of `AddListener`. -/
def AddListener.loopBody (gob : Decoder) (ql : QueueListener) (msg : Delivery) :
    QueueListener :=
  let (sd, _) := gob.Decode msg.Body SensorMessage.new
  let ed : EventData := { Name := sd.Name, Timestamp := sd.Timestamp, Value := sd.Value }
  ql.PublishEvent ("MessageReceived_" ++ msg.RoutingKey) (.data ed)

/-- Method `AddListener`, run on the deliveries `msgs` read from its channel. -/
def AddListener (gob : Decoder) (ql : QueueListener) (msgs : List Delivery) :
    QueueListener :=
  msgs.foldl (AddListener.loopBody gob) ql

/-! ## Sample collaborators used for concrete runs -/

/-- A broker that answers every call without error and hands out, for each
`Consume`, a fresh channel numbered by the length of the trace. -/
def okBroker : Broker :=
  { ExchangeDeclare := fun _ => none
    Publish := fun _ => none
    GetQueue := fun _ => "amq.gen-1"
    QueueBind := fun _ => none
    Consume := fun tr => (some ⟨tr.length⟩, none)
    deliveries := fun _ => [] }

/-- A broker on which every call fails; `Consume` returns a nil channel. -/
def failingBroker : Broker :=
  { ExchangeDeclare := fun _ => some "channel/connection is not open"
    Publish := fun _ => some "channel/connection is not open"
    GetQueue := fun _ => ""
    QueueBind := fun _ => some "channel/connection is not open"
    Consume := fun _ => (none, some "channel/connection is not open")
    deliveries := fun _ => [] }

/-- A stand-in decoder: the body `temp1@21.5` decodes to a full reading, every
other body is rejected and leaves the struct as it was. -/
def sampleDecoder : Decoder :=
  { Decode := fun body sd =>
      if body = "temp1@21.5" then
        ({ Name := "temp1", Value := 0x4035800000000000, Timestamp := 1700000000 }, none)
      else
        (sd, some "unexpected EOF") }

/-- A broker whose exchange declaration, publish and queue bind all fail while
`Consume` still hands out channels; the channel of the discovery queue
carries one announcement. -/
def brokenSetupBroker : Broker :=
  { ExchangeDeclare := fun _ => some "PRECONDITION_FAILED"
    Publish := fun _ => some "channel/connection is not open"
    GetQueue := fun _ => "amq.gen-1"
    QueueBind := fun _ => some "NOT_FOUND"
    Consume := fun tr => (some ⟨tr.length⟩, none)
    deliveries := fun c => if c.id = 3 then [⟨"temp1", ""⟩] else [] }

/-- A broker whose queue `a` is also bound under the routing key `b`: the
channel consumed from it carries a delivery with `RoutingKey` equal to `b`. -/
def crossBroker : Broker :=
  { ExchangeDeclare := fun _ => none
    Publish := fun _ => none
    GetQueue := fun _ => "amq.gen-1"
    QueueBind := fun _ => none
    Consume := fun _ => (some ⟨1⟩, none)
    deliveries := fun c => if c.id = 1 then [⟨"temp1@21.5", "b"⟩] else [] }

/-! ## Vocabulary of the statements -/

/-- Whether the decoder returns an error for `body`. -/
def Decoder.rejects (gob : Decoder) (body : String) : Bool :=
  (gob.Decode body SensorMessage.new).2.isSome

/-- The `PublishEvent` call expected of the listener for the delivery `msg`:
named after the routing key, carrying the three fields of the struct that
`Decode` filled. -/
def emitted (gob : Decoder) (msg : Delivery) : Effect :=
  .publishEvent ("MessageReceived_" ++ msg.RoutingKey)
    (.data { Name := (gob.Decode msg.Body SensorMessage.new).1.Name
             Timestamp := (gob.Decode msg.Body SensorMessage.new).1.Timestamp
             Value := (gob.Decode msg.Body SensorMessage.new).1.Value })

/-- The channel `Consume` returns when the discovery loop body registers `S`
in state `ql`. -/
def sourceChanFor (br : Broker) (ql : QueueListener) (S : String) : DeliveryChan :=
  (br.Consume (ql.trace ++ [.publishEvent "DataSourceDiscovered" (.source S),
    .consume S "" true false false false])).1

/-- The four effects of one registration of `S` with channel `c`. -/
def registration (S : String) (c : DeliveryChan) : List Effect :=
  [.publishEvent "DataSourceDiscovered" (.source S), .consume S "" true false false false,
   .store S c, .go c]

/-- Number of `DataSourceDiscovered` events with payload `S` in a trace. -/
def discoveredCount (tr : List Effect) (S : String) : Nat :=
  tr.count (.publishEvent "DataSourceDiscovered" (.source S))

/-- Number of `Consume` calls on queue `S` in a trace. -/
def consumeCount (tr : List Effect) (S : String) : Nat :=
  tr.count (.consume S "" true false false false)

/-- Recognises a registry write under key `S`. -/
def Effect.isStoreOf (S : String) : Effect → Bool
  | .store k _ => decide (k = S)
  | _ => false

/-- Recognises the start of a listener goroutine. -/
def Effect.isGo : Effect → Bool
  | .go _ => true
  | _ => false

/-- Recognises a `DataSourceDiscovered` event, whatever its payload. -/
def Effect.isDiscovered : Effect → Bool
  | .publishEvent n (.source _) => decide (n = "DataSourceDiscovered")
  | _ => false

/-- Number of registry writes under key `S` in a trace. -/
def storeCount (tr : List Effect) (S : String) : Nat := tr.countP (Effect.isStoreOf S)

/-- Number of listener goroutines started in a trace. -/
def spawnCount (tr : List Effect) : Nat := tr.countP Effect.isGo

/-- Number of `DataSourceDiscovered` events in a trace. -/
def eventCount (tr : List Effect) : Nat := tr.countP Effect.isDiscovered

/-- Bookkeeping invariant of the discovery loop for the identifier `S`: at most
one `DataSourceDiscovered` event for `S`, none while `S` reads as absent, as
many `Consume` calls and registry writes for `S` as events for `S`, and as many
goroutine starts as `DataSourceDiscovered` events overall. -/
def RegInv (ql : QueueListener) (S : String) : Prop :=
  discoveredCount ql.trace S ≤ 1 ∧
  (ql.sources.index S = none → discoveredCount ql.trace S = 0) ∧
  consumeCount ql.trace S = discoveredCount ql.trace S ∧
  storeCount ql.trace S = discoveredCount ql.trace S ∧
  spawnCount ql.trace = eventCount ql.trace

/-! ## Lemmas on the registry and the loop bodies -/

theorem str_append_cancel (p a b : String) (h : p ++ a = p ++ b) : a = b := by
  have h1 := congrArg String.data h
  simp only [String.data_append] at h1
  exact String.ext (List.append_cancel_left h1)

theorem index_assign_same (m : SourceMap) (k : String) (v : DeliveryChan) :
    (m.assign k v).index k = v := by
  simp [SourceMap.index, SourceMap.assign]

theorem index_assign_other (m : SourceMap) (k k2 : String) (v : DeliveryChan) (h : k2 ≠ k) :
    (m.assign k v).index k2 = m.index k2 := by
  simp [SourceMap.index, SourceMap.assign, Function.update_noteq h]

theorem AddListener_trace (gob : Decoder) (ql : QueueListener) (msgs : List Delivery) :
    (AddListener gob ql msgs).trace = ql.trace ++ msgs.map (emitted gob) := by
  induction msgs generalizing ql with
  | nil => simp [AddListener]
  | cons m ms ih =>
    have := ih (AddListener.loopBody gob ql m)
    simp only [AddListener, List.foldl_cons] at this ⊢
    rw [this]
    simp [AddListener.loopBody, QueueListener.PublishEvent, QueueListener.record, emitted]

theorem AddListener_sources (gob : Decoder) (ql : QueueListener) (msgs : List Delivery) :
    (AddListener gob ql msgs).sources = ql.sources := by
  induction msgs generalizing ql with
  | nil => simp [AddListener]
  | cons m ms ih =>
    have := ih (AddListener.loopBody gob ql m)
    simp only [AddListener, List.foldl_cons] at this ⊢
    rw [this]
    simp [AddListener.loopBody, QueueListener.PublishEvent, QueueListener.record]

theorem loopBody_absent (br : Broker) (ql : QueueListener) (msg : Delivery)
    (h : ql.sources.index msg.Body = none) :
    ListenForNewSource.loopBody br ql msg =
      { sources := ql.sources.assign msg.Body (sourceChanFor br ql msg.Body)
        trace := ql.trace ++ registration msg.Body (sourceChanFor br ql msg.Body) } := by
  simp [ListenForNewSource.loopBody, h, QueueListener.PublishEvent, QueueListener.Consume,
    QueueListener.setSource, QueueListener.goAddListener, QueueListener.record,
    sourceChanFor, registration]

theorem loopBody_present (br : Broker) (ql : QueueListener) (msg : Delivery)
    (h : ql.sources.index msg.Body ≠ none) :
    ListenForNewSource.loopBody br ql msg = ql := by
  simp [ListenForNewSource.loopBody, h]

theorem discoveredCount_registration (B S : String) (c : DeliveryChan) :
    discoveredCount (registration B c) S = if B = S then 1 else 0 := by
  simp [discoveredCount, registration, List.count_cons]

theorem consumeCount_registration (B S : String) (c : DeliveryChan) :
    consumeCount (registration B c) S = if B = S then 1 else 0 := by
  simp [consumeCount, registration, List.count_cons]

theorem storeCount_registration (B S : String) (c : DeliveryChan) :
    storeCount (registration B c) S = if B = S then 1 else 0 := by
  simp [storeCount, registration, List.countP_cons, Effect.isStoreOf]

theorem spawnCount_registration (B : String) (c : DeliveryChan) :
    spawnCount (registration B c) = 1 := by
  simp [spawnCount, registration, List.countP_cons, Effect.isGo]

theorem eventCount_registration (B : String) (c : DeliveryChan) :
    eventCount (registration B c) = 1 := by
  simp [eventCount, registration, List.countP_cons, Effect.isDiscovered]

/-! ## The per-source listener -/

/-- C2 (counterexample): the body `junk` is rejected by the decoder, yet
`AddListener` publishes a `MessageReceived_temp1` event for it, carrying the
zero-valued reading. -/
theorem malformed_message_still_emits :
    sampleDecoder.rejects "junk" = true ∧
    (AddListener sampleDecoder NewQueueListener [⟨"junk", "temp1"⟩]).trace =
      [.publishEvent "MessageReceived_temp1" (.data ⟨"", 0, 0⟩)] := by
  decide

/-- C2 (amended): `AddListener` drops the error of `Decode`, so on a stream
consisting only of messages whose body fails to decode it still publishes one
event per message, named after the routing key and carrying whatever `Decode`
left in the fresh struct; `n` malformed messages give `n` events. -/
theorem AddListener_emits_for_malformed (gob : Decoder) (ql : QueueListener)
    (msgs : List Delivery) (_hbad : ∀ msg ∈ msgs, gob.rejects msg.Body = true) :
    (AddListener gob ql msgs).trace = ql.trace ++ msgs.map (emitted gob) ∧
    (AddListener gob ql msgs).trace.length = ql.trace.length + msgs.length := by
  have h := AddListener_trace gob ql msgs
  exact ⟨h, by simp [h]⟩

/-- A stream of two rejected bodies yields two events. -/
theorem AddListener_emits_for_malformed_witness :
    (∀ msg ∈ ([⟨"junk", "temp1"⟩, ⟨"", "temp1"⟩] : List Delivery),
      sampleDecoder.rejects msg.Body = true) ∧
    ((AddListener sampleDecoder NewQueueListener [⟨"junk", "temp1"⟩, ⟨"", "temp1"⟩]).trace =
        NewQueueListener.trace ++
          ([⟨"junk", "temp1"⟩, ⟨"", "temp1"⟩] : List Delivery).map (emitted sampleDecoder) ∧
      (AddListener sampleDecoder NewQueueListener [⟨"junk", "temp1"⟩, ⟨"", "temp1"⟩]).trace.length =
        NewQueueListener.trace.length + 2) :=
  ⟨by decide,
   AddListener_emits_for_malformed sampleDecoder NewQueueListener
     [⟨"junk", "temp1"⟩, ⟨"", "temp1"⟩] (by decide)⟩

/-- C3 (counterexample): the discovery loop starts the listener of source `a`
on the channel consumed from queue `a`; a delivery on that channel whose
routing key is `b` makes the listener publish `MessageReceived_b`. -/
theorem cross_source_event_name :
    (ListenForNewSource.loopBody crossBroker NewQueueListener ⟨"a", ""⟩).trace =
      [.publishEvent "DataSourceDiscovered" (.source "a"),
       .consume "a" "" true false false false, .store "a" (some ⟨1⟩), .go (some ⟨1⟩)] ∧
    (AddListener sampleDecoder NewQueueListener (crossBroker.range (some ⟨1⟩))).trace =
      [.publishEvent "MessageReceived_b"
        (.data ⟨"temp1", 1700000000, 0x4035800000000000⟩)] := by
  decide

/-- C3 (amended): the listener names each event `MessageReceived_` followed by
the routing key of the delivery, never by anything in the body.  Hence, when
every delivery of the stream carries the routing key `a`, every event of the
task is named `MessageReceived_a`, and for `b` different from `a` none is named
`MessageReceived_b`. -/
theorem AddListener_event_names (gob : Decoder) (msgs : List Delivery) (a b : String)
    (hrk : ∀ msg ∈ msgs, msg.RoutingKey = a) (hab : a ≠ b) :
    (∀ e ∈ (AddListener gob NewQueueListener msgs).trace,
      ∃ d, e = Effect.publishEvent ("MessageReceived_" ++ a) d) ∧
    (∀ d, Effect.publishEvent ("MessageReceived_" ++ b) d ∉
      (AddListener gob NewQueueListener msgs).trace) := by
  have key : ∀ e ∈ (AddListener gob NewQueueListener msgs).trace,
      ∃ d, e = Effect.publishEvent ("MessageReceived_" ++ a) d := by
    intro e he
    rw [AddListener_trace] at he
    simp only [NewQueueListener, List.nil_append, List.mem_map] at he
    obtain ⟨msg, hmem, rfl⟩ := he
    rw [emitted, hrk msg hmem]
    exact ⟨_, rfl⟩
  refine ⟨key, ?_⟩
  intro d hd
  obtain ⟨d2, hd2⟩ := key _ hd
  injection hd2 with hname _
  exact hab (str_append_cancel _ _ _ hname).symm

/-- Two deliveries with routing key `a`: both events are named after `a`, none after `b`. -/
theorem AddListener_event_names_witness :
    (∀ msg ∈ ([⟨"temp1@21.5", "a"⟩, ⟨"junk", "a"⟩] : List Delivery), msg.RoutingKey = "a") ∧
    "a" ≠ "b" ∧
    ((∀ e ∈ (AddListener sampleDecoder NewQueueListener
          [⟨"temp1@21.5", "a"⟩, ⟨"junk", "a"⟩]).trace,
        ∃ d, e = Effect.publishEvent ("MessageReceived_" ++ "a") d) ∧
      (∀ d, Effect.publishEvent ("MessageReceived_" ++ "b") d ∉
        (AddListener sampleDecoder NewQueueListener
          [⟨"temp1@21.5", "a"⟩, ⟨"junk", "a"⟩]).trace)) :=
  ⟨by decide, by decide,
   AddListener_event_names sampleDecoder [⟨"temp1@21.5", "a"⟩, ⟨"junk", "a"⟩] "a" "b"
     (by decide) (by decide)⟩

/-- C4: a delivery whose body decodes without error to the reading `r` makes
`AddListener` publish exactly one event for it, at its place in the stream,
whose payload has the Name, the Timestamp and the Value of `r`; the event is
named `MessageReceived_` followed by the routing key of the delivery. -/
theorem AddListener_decoded_payload (gob : Decoder) (ql : QueueListener)
    (pre post : List Delivery) (msg : Delivery) (r : SensorMessage)
    (hdec : gob.Decode msg.Body SensorMessage.new = (r, none)) :
    (AddListener gob ql [msg]).trace = ql.trace ++
      [.publishEvent ("MessageReceived_" ++ msg.RoutingKey)
        (.data { Name := r.Name, Timestamp := r.Timestamp, Value := r.Value })] ∧
    (AddListener gob ql (pre ++ msg :: post)).trace = (AddListener gob ql pre).trace ++
      [.publishEvent ("MessageReceived_" ++ msg.RoutingKey)
        (.data { Name := r.Name, Timestamp := r.Timestamp, Value := r.Value })] ++
      (AddListener gob NewQueueListener post).trace := by
  have he : emitted gob msg = .publishEvent ("MessageReceived_" ++ msg.RoutingKey)
      (.data { Name := r.Name, Timestamp := r.Timestamp, Value := r.Value }) := by
    simp [emitted, hdec]
  constructor
  · rw [AddListener_trace, List.map_singleton, he]
  · simp only [AddListener_trace, List.map_append, List.map_cons, he, NewQueueListener,
      List.nil_append, List.append_assoc, List.singleton_append]

/-- The sample reading on stream `temp1` is republished as `MessageReceived_temp1`. -/
theorem AddListener_decoded_payload_witness :
    sampleDecoder.Decode "temp1@21.5" SensorMessage.new =
      (⟨"temp1", 0x4035800000000000, 1700000000⟩, none) ∧
    (AddListener sampleDecoder NewQueueListener [⟨"temp1@21.5", "temp1"⟩]).trace =
      [.publishEvent "MessageReceived_temp1"
        (.data ⟨"temp1", 1700000000, 0x4035800000000000⟩)] :=
  ⟨by decide,
   (AddListener_decoded_payload sampleDecoder NewQueueListener [] []
     ⟨"temp1@21.5", "temp1"⟩ ⟨"temp1", 0x4035800000000000, 1700000000⟩ (by decide)).1⟩

/-- C5: on a stream made of a malformed message followed by a well-formed
message `m`, `AddListener` goes past the malformed one and publishes for `m`
the very event, name and payload, that it publishes when `m` is the only
message of the stream. -/
theorem AddListener_continues_after_malformed (gob : Decoder) (ql : QueueListener)
    (bad m : Delivery) (r : SensorMessage)
    (_hbad : gob.rejects bad.Body = true)
    (hm : gob.Decode m.Body SensorMessage.new = (r, none)) :
    (AddListener gob ql [bad, m]).trace = (AddListener gob ql [bad]).trace ++
      [.publishEvent ("MessageReceived_" ++ m.RoutingKey)
        (.data { Name := r.Name, Timestamp := r.Timestamp, Value := r.Value })] ∧
    (AddListener gob ql [m]).trace = ql.trace ++
      [.publishEvent ("MessageReceived_" ++ m.RoutingKey)
        (.data { Name := r.Name, Timestamp := r.Timestamp, Value := r.Value })] := by
  have he : emitted gob m = .publishEvent ("MessageReceived_" ++ m.RoutingKey)
      (.data { Name := r.Name, Timestamp := r.Timestamp, Value := r.Value }) := by
    simp [emitted, hm]
  constructor
  · simp only [AddListener_trace, List.map_cons, List.map_nil, he, List.append_assoc,
      List.singleton_append]
  · rw [AddListener_trace, List.map_singleton, he]

/-- A rejected body followed by the sample reading. -/
theorem AddListener_continues_after_malformed_witness :
    sampleDecoder.rejects "junk" = true ∧
    sampleDecoder.Decode "temp1@21.5" SensorMessage.new =
      (⟨"temp1", 0x4035800000000000, 1700000000⟩, none) ∧
    (AddListener sampleDecoder NewQueueListener
        [⟨"junk", "temp1"⟩, ⟨"temp1@21.5", "temp1"⟩]).trace =
      (AddListener sampleDecoder NewQueueListener [⟨"junk", "temp1"⟩]).trace ++
        [.publishEvent "MessageReceived_temp1"
          (.data ⟨"temp1", 1700000000, 0x4035800000000000⟩)] :=
  ⟨by decide, by decide,
   (AddListener_continues_after_malformed sampleDecoder NewQueueListener
     ⟨"junk", "temp1"⟩ ⟨"temp1@21.5", "temp1"⟩ ⟨"temp1", 0x4035800000000000, 1700000000⟩
     (by decide) (by decide)).1⟩

/-! ## Setup and broadcast -/

/-- C6 (counterexample): on a broker whose exchange declaration, publish and
queue bind all return an error, `DiscoverSensors` still attempts the publish
after the failed declaration, and `ListenForNewSource` still runs its loop and
registers the announced source. -/
theorem setup_failures_not_surfaced :
    brokenSetupBroker.ExchangeDeclare
      [.exchangeDeclare "SensorDiscovery" "fanout" false false false false] ≠ none ∧
    (DiscoverSensors "SensorDiscovery" brokenSetupBroker NewQueueListener).trace =
      [.exchangeDeclare "SensorDiscovery" "fanout" false false false false,
       .publish "SensorDiscovery" "" false false ""] ∧
    (ListenForNewSource "SensorDiscovery" brokenSetupBroker NewQueueListener).trace =
      [.getQueue "" true,
       .queueBind "amq.gen-1" "" "amq.fanout" false,
       .consume "amq.gen-1" "" true false false false,
       .exchangeDeclare "SensorDiscovery" "fanout" false false false false,
       .publish "SensorDiscovery" "" false false "",
       .publishEvent "DataSourceDiscovered" (.source "temp1"),
       .consume "temp1" "" true false false false,
       .store "temp1" (some ⟨7⟩),
       .go (some ⟨7⟩)] := by
  decide

/-- C6 (amended): the results of the broker calls are dropped.  Whatever the
broker answers, `DiscoverSensors` declares the exchange and then publishes to
it, leaving the registry alone; `ListenForNewSource` obtains the queue, binds
it, consumes it, runs `DiscoverSensors`, and then runs its loop over every
delivery of the channel that `Consume` returned (none for a nil channel). -/
theorem setup_results_are_dropped (X : String) (br : Broker) (ql : QueueListener) :
    (DiscoverSensors X br ql).trace = ql.trace ++
      [.exchangeDeclare X "fanout" false false false false,
       .publish X "" false false ""] ∧
    (DiscoverSensors X br ql).sources = ql.sources ∧
    ListenForNewSource X br ql =
      ListenForNewSource.loop br
        { sources := ql.sources
          trace := ql.trace ++
            [.getQueue "" true,
             .queueBind (br.GetQueue (ql.trace ++ [.getQueue "" true])) "" "amq.fanout" false,
             .consume (br.GetQueue (ql.trace ++ [.getQueue "" true])) "" true false false false,
             .exchangeDeclare X "fanout" false false false false,
             .publish X "" false false ""] }
        (br.range (br.Consume (ql.trace ++
            [.getQueue "" true,
             .queueBind (br.GetQueue (ql.trace ++ [.getQueue "" true])) "" "amq.fanout" false,
             .consume (br.GetQueue (ql.trace ++ [.getQueue "" true])) "" true false false
               false])).1) := by
  refine ⟨?_, ?_, ?_⟩
  · simp [DiscoverSensors, QueueListener.ExchangeDeclare, QueueListener.Publish,
      QueueListener.record]
  · simp [DiscoverSensors, QueueListener.ExchangeDeclare, QueueListener.Publish,
      QueueListener.record]
  · simp [ListenForNewSource, DiscoverSensors, QueueListener.ExchangeDeclare,
      QueueListener.Publish, QueueListener.GetQueue, QueueListener.QueueBind,
      QueueListener.Consume, QueueListener.record]

/-! ## The discovery loop: one and two announcements -/

theorem index_of_absent (m : SourceMap) (k : String) (h : m k = none) : m.index k = none := by
  simp [SourceMap.index, h]

theorem loop_pair (br : Broker) (ql : QueueListener) (m1 m2 : Delivery) :
    ListenForNewSource.loop br ql [m1, m2] =
      ListenForNewSource.loopBody br (ListenForNewSource.loopBody br ql m1) m2 := by
  simp [ListenForNewSource.loop]

/-- C9 (counterexample): for the announcement `temp1` on a fresh listener the
`DataSourceDiscovered` event is the first effect and the registry write the
third, and right after the event is published `temp1` is still absent from
the registry. -/
theorem event_precedes_registry_write :
    NewQueueListener.sources.index "temp1" = none ∧
    (ListenForNewSource.loopBody okBroker NewQueueListener ⟨"temp1", ""⟩).trace =
      [.publishEvent "DataSourceDiscovered" (.source "temp1"),
       .consume "temp1" "" true false false false,
       .store "temp1" (some ⟨2⟩),
       .go (some ⟨2⟩)] ∧
    (NewQueueListener.PublishEvent "DataSourceDiscovered" (.source "temp1")).sources.index
      "temp1" = none := by
  decide

/-- C9 (amended): for an announcement whose body `S` reads as absent, the loop
body first publishes `DataSourceDiscovered` with payload `S` (the registry
still lacks `S` at that moment), then calls `Consume` on the queue named `S`,
then writes the returned channel into the registry under `S`, then starts the
listener goroutine on that channel. -/
theorem registration_effect_order (br : Broker) (ql : QueueListener) (msg : Delivery)
    (habs : ql.sources.index msg.Body = none) :
    (ListenForNewSource.loopBody br ql msg).trace = ql.trace ++
      [.publishEvent "DataSourceDiscovered" (.source msg.Body),
       .consume msg.Body "" true false false false,
       .store msg.Body (sourceChanFor br ql msg.Body),
       .go (sourceChanFor br ql msg.Body)] ∧
    (ql.PublishEvent "DataSourceDiscovered" (.source msg.Body)).sources.index msg.Body = none ∧
    ListenForNewSource.loopBody br ql msg =
      ((((ql.PublishEvent "DataSourceDiscovered" (.source msg.Body)).Consume br msg.Body ""
        true false false false).2.setSource msg.Body (sourceChanFor br ql msg.Body)).goAddListener
        (sourceChanFor br ql msg.Body)) ∧
    (ListenForNewSource.loopBody br ql msg).sources.index msg.Body =
      sourceChanFor br ql msg.Body := by
  refine ⟨?_, ?_, ?_, ?_⟩
  · rw [loopBody_absent br ql msg habs]
    rfl
  · simpa [QueueListener.PublishEvent, QueueListener.record] using habs
  · simp [ListenForNewSource.loopBody, habs, QueueListener.PublishEvent,
      QueueListener.Consume, QueueListener.setSource, QueueListener.goAddListener,
      QueueListener.record, sourceChanFor]
  · rw [loopBody_absent br ql msg habs]
    exact index_assign_same _ _ _

/-- The first announcement of `temp1` on a fresh listener. -/
theorem registration_effect_order_witness :
    NewQueueListener.sources.index (⟨"temp1", ""⟩ : Delivery).Body = none ∧
    (ListenForNewSource.loopBody okBroker NewQueueListener ⟨"temp1", ""⟩).trace =
      NewQueueListener.trace ++
      [.publishEvent "DataSourceDiscovered" (.source "temp1"),
       .consume "temp1" "" true false false false,
       .store "temp1" (sourceChanFor okBroker NewQueueListener "temp1"),
       .go (sourceChanFor okBroker NewQueueListener "temp1")] :=
  ⟨by decide,
   (registration_effect_order okBroker NewQueueListener ⟨"temp1", ""⟩ (by decide)).1⟩

/-- C1 (counterexample): on a broker whose `Consume` returns a nil channel, two
announcements of `temp1` in sequence, starting from a registry without
`temp1`, publish two `DataSourceDiscovered` events, call `Consume` twice and
start two listener goroutines. -/
theorem reannouncement_registers_twice :
    NewQueueListener.sources "temp1" = none ∧
    (ListenForNewSource.loop failingBroker NewQueueListener
        [⟨"temp1", ""⟩, ⟨"temp1", ""⟩]).trace =
      [.publishEvent "DataSourceDiscovered" (.source "temp1"),
       .consume "temp1" "" true false false false,
       .store "temp1" none,
       .go none,
       .publishEvent "DataSourceDiscovered" (.source "temp1"),
       .consume "temp1" "" true false false false,
       .store "temp1" none,
       .go none] := by
  decide

/-- C1 (amended): when `S` is absent from the registry and the `Consume` call
for `S` returns a non-nil channel `c`, two announcements with body `S` in
sequence leave `S` registered with `c` (other keys untouched), and add to the
trace exactly one `DataSourceDiscovered` event for `S`, one `Consume` on queue
`S`, one registry write and one listener start; the second announcement
changes nothing. -/
theorem reannouncement_is_noop (br : Broker) (ql : QueueListener) (S rk1 rk2 : String)
    (c : Chan) (habs : ql.sources S = none) (hc : sourceChanFor br ql S = some c) :
    ListenForNewSource.loop br ql [⟨S, rk1⟩, ⟨S, rk2⟩] =
      ListenForNewSource.loopBody br ql ⟨S, rk1⟩ ∧
    (ListenForNewSource.loop br ql [⟨S, rk1⟩, ⟨S, rk2⟩]).sources S = some (some c) ∧
    (∀ k, k ≠ S →
      (ListenForNewSource.loop br ql [⟨S, rk1⟩, ⟨S, rk2⟩]).sources k = ql.sources k) ∧
    (ListenForNewSource.loop br ql [⟨S, rk1⟩, ⟨S, rk2⟩]).trace = ql.trace ++
      [.publishEvent "DataSourceDiscovered" (.source S),
       .consume S "" true false false false,
       .store S (some c),
       .go (some c)] := by
  have h1 : ListenForNewSource.loopBody br ql ⟨S, rk1⟩ =
      { sources := ql.sources.assign S (some c), trace := ql.trace ++ registration S (some c) } := by
    have := loopBody_absent br ql ⟨S, rk1⟩ (index_of_absent _ _ habs)
    simpa [hc] using this
  have h2 : ListenForNewSource.loop br ql [⟨S, rk1⟩, ⟨S, rk2⟩] =
      ListenForNewSource.loopBody br ql ⟨S, rk1⟩ := by
    rw [loop_pair]
    apply loopBody_present
    rw [h1]
    simp [index_assign_same]
  refine ⟨h2, ?_, ?_, ?_⟩
  · rw [h2, h1]
    simp [SourceMap.assign]
  · intro k hk
    rw [h2, h1]
    simp [SourceMap.assign, Function.update_noteq hk]
  · rw [h2, h1]
    rfl

/-- Two announcements of `temp1` on a broker that hands out channels. -/
theorem reannouncement_is_noop_witness :
    NewQueueListener.sources "temp1" = none ∧
    sourceChanFor okBroker NewQueueListener "temp1" = some ⟨2⟩ ∧
    (ListenForNewSource.loop okBroker NewQueueListener
        [⟨"temp1", ""⟩, ⟨"temp1", "again"⟩]).trace = NewQueueListener.trace ++
      [.publishEvent "DataSourceDiscovered" (.source "temp1"),
       .consume "temp1" "" true false false false,
       .store "temp1" (some ⟨2⟩),
       .go (some ⟨2⟩)] :=
  ⟨by decide, by decide,
   (reannouncement_is_noop okBroker NewQueueListener "temp1" "" "again" ⟨2⟩
     (by decide) (by decide)).2.2.2⟩

/-- C10: whether a source counts as registered is the stored channel being
non-nil, and the error of `Consume` is dropped.  After the loop body has run
for an absent `S`, the registry reads for `S` exactly the channel `Consume`
returned; a second announcement of `S` is a no-op exactly when that channel is
non-nil; when it is nil the two announcements publish two
`DataSourceDiscovered` events and start two listener goroutines. -/
theorem dedup_iff_consume_nonnil (br : Broker) (ql : QueueListener) (S rk1 rk2 : String)
    (habs : ql.sources.index S = none) :
    (ListenForNewSource.loopBody br ql ⟨S, rk1⟩).sources.index S = sourceChanFor br ql S ∧
    (ListenForNewSource.loop br ql [⟨S, rk1⟩, ⟨S, rk2⟩] =
        ListenForNewSource.loopBody br ql ⟨S, rk1⟩ ↔ sourceChanFor br ql S ≠ none) ∧
    (sourceChanFor br ql S = none →
      (ListenForNewSource.loop br ql [⟨S, rk1⟩, ⟨S, rk2⟩]).trace = ql.trace ++
        [.publishEvent "DataSourceDiscovered" (.source S),
         .consume S "" true false false false,
         .store S none,
         .go none,
         .publishEvent "DataSourceDiscovered" (.source S),
         .consume S "" true false false false,
         .store S (sourceChanFor br (ListenForNewSource.loopBody br ql ⟨S, rk1⟩) S),
         .go (sourceChanFor br (ListenForNewSource.loopBody br ql ⟨S, rk1⟩) S)]) := by
  have h1 := loopBody_absent br ql ⟨S, rk1⟩ habs
  have hidx : (ListenForNewSource.loopBody br ql ⟨S, rk1⟩).sources.index S =
      sourceChanFor br ql S := by
    rw [h1]
    exact index_assign_same _ _ _
  have hnil : sourceChanFor br ql S = none →
      (ListenForNewSource.loop br ql [⟨S, rk1⟩, ⟨S, rk2⟩]).trace = ql.trace ++
        [.publishEvent "DataSourceDiscovered" (.source S),
         .consume S "" true false false false,
         .store S none,
         .go none,
         .publishEvent "DataSourceDiscovered" (.source S),
         .consume S "" true false false false,
         .store S (sourceChanFor br (ListenForNewSource.loopBody br ql ⟨S, rk1⟩) S),
         .go (sourceChanFor br (ListenForNewSource.loopBody br ql ⟨S, rk1⟩) S)] := by
    intro hn
    have h2 := loopBody_absent br (ListenForNewSource.loopBody br ql ⟨S, rk1⟩) ⟨S, rk2⟩
      (by rw [hidx]; exact hn)
    rw [loop_pair, h2]
    have ht : (ListenForNewSource.loopBody br ql ⟨S, rk1⟩).trace =
        ql.trace ++ registration S none := by
      rw [h1]
      simp [hn]
    simp [ht, registration]
  refine ⟨hidx, ⟨?_, ?_⟩, hnil⟩
  · intro heq hn
    have ht := congrArg (fun q => q.trace.length) heq
    have h3 := hnil hn
    have h4 : (ListenForNewSource.loopBody br ql ⟨S, rk1⟩).trace =
        ql.trace ++ registration S none := by
      rw [h1]
      simp [hn]
    simp only [h3, h4, registration, List.length_append, List.length_cons,
      List.length_nil] at ht
    omega
  · intro hne
    rw [loop_pair]
    apply loopBody_present
    rw [hidx]
    exact hne

/-- Two announcements of `temp1` on a broker whose `Consume` fails: two events, two listener starts. -/
theorem dedup_iff_consume_nonnil_witness :
    NewQueueListener.sources.index "temp1" = none ∧
    sourceChanFor failingBroker NewQueueListener "temp1" = none ∧
    (ListenForNewSource.loop failingBroker NewQueueListener
        [⟨"temp1", "k1"⟩, ⟨"temp1", "k2"⟩]).trace = NewQueueListener.trace ++
      [.publishEvent "DataSourceDiscovered" (.source "temp1"),
       .consume "temp1" "" true false false false,
       .store "temp1" none,
       .go none,
       .publishEvent "DataSourceDiscovered" (.source "temp1"),
       .consume "temp1" "" true false false false,
       .store "temp1" (sourceChanFor failingBroker
         (ListenForNewSource.loopBody failingBroker NewQueueListener ⟨"temp1", "k1"⟩) "temp1"),
       .go (sourceChanFor failingBroker
         (ListenForNewSource.loopBody failingBroker NewQueueListener ⟨"temp1", "k1"⟩)
         "temp1")] :=
  ⟨by decide, by decide,
   (dedup_iff_consume_nonnil failingBroker NewQueueListener "temp1" "k1" "k2"
     (by decide)).2.2 (by decide)⟩

/-! ## The discovery loop: two sources, and arbitrary runs -/

theorem two_fresh_sources (br : Broker) (ql : QueueListener) (x y rkx rky : String)
    (hxy : x ≠ y) (hempty : ∀ k, ql.sources k = none)
    (hbr : ∀ tr, (br.Consume tr).1 ≠ none) :
    ∃ cx cy : Chan,
      sourceChanFor br ql x = some cx ∧
      sourceChanFor br (ListenForNewSource.loopBody br ql ⟨x, rkx⟩) y = some cy ∧
      (ListenForNewSource.loop br ql [⟨x, rkx⟩, ⟨y, rky⟩]).trace =
        ql.trace ++ (registration x (some cx) ++ registration y (some cy)) ∧
      (ListenForNewSource.loop br ql [⟨x, rkx⟩, ⟨y, rky⟩]).sources x = some (some cx) ∧
      (ListenForNewSource.loop br ql [⟨x, rkx⟩, ⟨y, rky⟩]).sources y = some (some cy) ∧
      (∀ k, k ≠ x → k ≠ y →
        (ListenForNewSource.loop br ql [⟨x, rkx⟩, ⟨y, rky⟩]).sources k = none) := by
  have hx : ql.sources.index (⟨x, rkx⟩ : Delivery).Body = none :=
    index_of_absent _ _ (hempty x)
  have h1 := loopBody_absent br ql ⟨x, rkx⟩ hx
  obtain ⟨cx, hcx⟩ := Option.ne_none_iff_exists'.mp
    (show sourceChanFor br ql x ≠ none from hbr _)
  obtain ⟨cy, hcy⟩ := Option.ne_none_iff_exists'.mp
    (show sourceChanFor br (ListenForNewSource.loopBody br ql ⟨x, rkx⟩) y ≠ none from hbr _)
  have hy : (ListenForNewSource.loopBody br ql ⟨x, rkx⟩).sources.index
      (⟨y, rky⟩ : Delivery).Body = none := by
    rw [h1]
    show (ql.sources.assign x _).index y = none
    rw [index_assign_other _ _ _ _ (Ne.symm hxy)]
    exact index_of_absent _ _ (hempty y)
  have h2 := loopBody_absent br _ ⟨y, rky⟩ hy
  simp only [hcy] at h2
  simp only [hcx] at h1
  refine ⟨cx, cy, hcx, hcy, ?_, ?_, ?_, ?_⟩
  · rw [loop_pair, h2, h1]
    simp
  · rw [loop_pair, h2, h1]
    simp [SourceMap.assign, Function.update_noteq hxy]
  · rw [loop_pair, h2, h1]
    simp [SourceMap.assign]
  · intro k hkx hky
    rw [loop_pair, h2, h1]
    simp [SourceMap.assign, Function.update_noteq hkx, Function.update_noteq hky, hempty k]

/-- C7 (counterexample): on a broker whose `Consume` returns a nil channel, the
announcements `a` then `b` on a fresh listener leave `a` reading as not
registered, and the listener of `a` is started on a nil channel, which never
delivers a message of queue `a`. -/
theorem failed_consume_leaves_source_unregistered :
    (ListenForNewSource.loop failingBroker NewQueueListener
        [⟨"a", ""⟩, ⟨"b", ""⟩]).sources.index "a" = none ∧
    (ListenForNewSource.loop failingBroker NewQueueListener [⟨"a", ""⟩, ⟨"b", ""⟩]).trace =
      [.publishEvent "DataSourceDiscovered" (.source "a"),
       .consume "a" "" true false false false,
       .store "a" none,
       .go none,
       .publishEvent "DataSourceDiscovered" (.source "b"),
       .consume "b" "" true false false false,
       .store "b" none,
       .go none] ∧
    failingBroker.range none = [] := by
  decide

/-- C7 (amended): when `Consume` returns non-nil channels, two distinct
identifiers `a` and `b` announced to an empty registry, in either order, end
with exactly `a` and `b` registered, after one `DataSourceDiscovered` event,
one `Consume` and one listener start per identifier.  The channel stored for
an identifier, and the one its listener is started on, is the very channel
that the `Consume` call on the queue of that identifier returned. -/
theorem two_sources_either_order (br : Broker) (ql : QueueListener) (a b rka rkb : String)
    (hab : a ≠ b) (hempty : ∀ k, ql.sources k = none)
    (hbr : ∀ tr, (br.Consume tr).1 ≠ none) :
    (∃ ca cb : Chan,
      sourceChanFor br ql a = some ca ∧
      sourceChanFor br (ListenForNewSource.loopBody br ql ⟨a, rka⟩) b = some cb ∧
      (ListenForNewSource.loop br ql [⟨a, rka⟩, ⟨b, rkb⟩]).trace = ql.trace ++
        [.publishEvent "DataSourceDiscovered" (.source a),
         .consume a "" true false false false, .store a (some ca), .go (some ca),
         .publishEvent "DataSourceDiscovered" (.source b),
         .consume b "" true false false false, .store b (some cb), .go (some cb)] ∧
      (ListenForNewSource.loop br ql [⟨a, rka⟩, ⟨b, rkb⟩]).sources a = some (some ca) ∧
      (ListenForNewSource.loop br ql [⟨a, rka⟩, ⟨b, rkb⟩]).sources b = some (some cb) ∧
      (∀ k, k ≠ a → k ≠ b →
        (ListenForNewSource.loop br ql [⟨a, rka⟩, ⟨b, rkb⟩]).sources k = none)) ∧
    (∃ ca cb : Chan,
      sourceChanFor br ql b = some cb ∧
      sourceChanFor br (ListenForNewSource.loopBody br ql ⟨b, rkb⟩) a = some ca ∧
      (ListenForNewSource.loop br ql [⟨b, rkb⟩, ⟨a, rka⟩]).trace = ql.trace ++
        [.publishEvent "DataSourceDiscovered" (.source b),
         .consume b "" true false false false, .store b (some cb), .go (some cb),
         .publishEvent "DataSourceDiscovered" (.source a),
         .consume a "" true false false false, .store a (some ca), .go (some ca)] ∧
      (ListenForNewSource.loop br ql [⟨b, rkb⟩, ⟨a, rka⟩]).sources a = some (some ca) ∧
      (ListenForNewSource.loop br ql [⟨b, rkb⟩, ⟨a, rka⟩]).sources b = some (some cb) ∧
      (∀ k, k ≠ a → k ≠ b →
        (ListenForNewSource.loop br ql [⟨b, rkb⟩, ⟨a, rka⟩]).sources k = none)) := by
  constructor
  · obtain ⟨ca, cb, hca, hcb, ht, hsa, hsb, hk⟩ :=
      two_fresh_sources br ql a b rka rkb hab hempty hbr
    exact ⟨ca, cb, hca, hcb, by simpa [registration] using ht, hsa, hsb, hk⟩
  · obtain ⟨cb, ca, hcb, hca, ht, hsb, hsa, hk⟩ :=
      two_fresh_sources br ql b a rkb rka (Ne.symm hab) hempty hbr
    exact ⟨ca, cb, hcb, hca, by simpa [registration] using ht, hsa, hsb,
      fun k hka hkb => hk k hkb hka⟩

/-- The announcements `a`, `b` on a fresh listener and a broker that hands out channels. -/
theorem two_sources_either_order_witness :
    "a" ≠ "b" ∧ (∀ k, NewQueueListener.sources k = none) ∧
    (∀ tr, (okBroker.Consume tr).1 ≠ none) ∧
    (∃ ca cb : Chan,
      sourceChanFor okBroker NewQueueListener "a" = some ca ∧
      sourceChanFor okBroker
        (ListenForNewSource.loopBody okBroker NewQueueListener ⟨"a", ""⟩) "b" = some cb ∧
      (ListenForNewSource.loop okBroker NewQueueListener [⟨"a", ""⟩, ⟨"b", ""⟩]).trace =
        NewQueueListener.trace ++
        [.publishEvent "DataSourceDiscovered" (.source "a"),
         .consume "a" "" true false false false, .store "a" (some ca), .go (some ca),
         .publishEvent "DataSourceDiscovered" (.source "b"),
         .consume "b" "" true false false false, .store "b" (some cb), .go (some cb)] ∧
      (ListenForNewSource.loop okBroker NewQueueListener
        [⟨"a", ""⟩, ⟨"b", ""⟩]).sources "a" = some (some ca) ∧
      (ListenForNewSource.loop okBroker NewQueueListener
        [⟨"a", ""⟩, ⟨"b", ""⟩]).sources "b" = some (some cb) ∧
      (∀ k, k ≠ "a" → k ≠ "b" →
        (ListenForNewSource.loop okBroker NewQueueListener
          [⟨"a", ""⟩, ⟨"b", ""⟩]).sources k = none)) :=
  ⟨by decide, fun _ => rfl, fun _ => by simp [okBroker],
   (two_sources_either_order okBroker NewQueueListener "a" "b" "" "" (by decide)
     (fun _ => rfl) (fun _ => by simp [okBroker])).1⟩

theorem discoveredCount_append (t1 t2 : List Effect) (S : String) :
    discoveredCount (t1 ++ t2) S = discoveredCount t1 S + discoveredCount t2 S := by
  simp [discoveredCount, List.count_append]

theorem consumeCount_append (t1 t2 : List Effect) (S : String) :
    consumeCount (t1 ++ t2) S = consumeCount t1 S + consumeCount t2 S := by
  simp [consumeCount, List.count_append]

theorem storeCount_append (t1 t2 : List Effect) (S : String) :
    storeCount (t1 ++ t2) S = storeCount t1 S + storeCount t2 S := by
  simp [storeCount, List.countP_append]

theorem spawnCount_append (t1 t2 : List Effect) :
    spawnCount (t1 ++ t2) = spawnCount t1 + spawnCount t2 := by
  simp [spawnCount, List.countP_append]

theorem eventCount_append (t1 t2 : List Effect) :
    eventCount (t1 ++ t2) = eventCount t1 + eventCount t2 := by
  simp [eventCount, List.countP_append]

theorem RegInv_new (S : String) : RegInv NewQueueListener S := by
  simp [RegInv, NewQueueListener, discoveredCount, consumeCount, storeCount, spawnCount,
    eventCount]

theorem RegInv_step (br : Broker) (hbr : ∀ tr, (br.Consume tr).1 ≠ none)
    (ql : QueueListener) (msg : Delivery) (S : String) (h : RegInv ql S) :
    RegInv (ListenForNewSource.loopBody br ql msg) S := by
  by_cases habs : ql.sources.index msg.Body = none
  · obtain ⟨hle, hzero, hcons, hstore, hspawn⟩ := h
    have hc : sourceChanFor br ql msg.Body ≠ none := hbr _
    rw [loopBody_absent br ql msg habs]
    simp only [RegInv, discoveredCount_append, consumeCount_append, storeCount_append,
      spawnCount_append, eventCount_append, discoveredCount_registration,
      consumeCount_registration, storeCount_registration, spawnCount_registration,
      eventCount_registration]
    by_cases hB : msg.Body = S
    · have h0 : discoveredCount ql.trace S = 0 := hzero (hB ▸ habs)
      refine ⟨by simp [hB, h0], ?_, by simp [hB, hcons], by simp [hB, hstore], by omega⟩
      intro hidx
      rw [← hB, index_assign_same] at hidx
      exact absurd hidx hc
    · refine ⟨by simpa [hB] using hle, ?_, by simp [hB, hcons], by simp [hB, hstore],
        by omega⟩
      intro hidx
      rw [index_assign_other _ _ _ _ (Ne.symm hB)] at hidx
      simpa [hB] using hzero hidx
  · rw [loopBody_present br ql msg habs]
    exact h

theorem RegInv_loop (br : Broker) (hbr : ∀ tr, (br.Consume tr).1 ≠ none)
    (msgs : List Delivery) (S : String) :
    ∀ ql, RegInv ql S → RegInv (ListenForNewSource.loop br ql msgs) S := by
  induction msgs with
  | nil => intro ql h; simpa [ListenForNewSource.loop] using h
  | cons m ms ih =>
    intro ql h
    have := ih _ (RegInv_step br hbr ql m S h)
    simpa [ListenForNewSource.loop] using this

theorem index_kept_step (br : Broker) (ql : QueueListener) (msg : Delivery) (S : String)
    (c : Chan) (h : ql.sources.index S = some c) :
    (ListenForNewSource.loopBody br ql msg).sources.index S = some c := by
  by_cases habs : ql.sources.index msg.Body = none
  · have hB : S ≠ msg.Body := by
      intro hEq
      rw [hEq, habs] at h
      exact Option.noConfusion h
    rw [loopBody_absent br ql msg habs]
    show (ql.sources.assign msg.Body _).index S = some c
    rw [index_assign_other _ _ _ _ hB]
    exact h
  · rw [loopBody_present br ql msg habs]
    exact h

theorem key_kept_step (br : Broker) (ql : QueueListener) (msg : Delivery) (S : String)
    (h : ql.sources S ≠ none) :
    (ListenForNewSource.loopBody br ql msg).sources S ≠ none := by
  by_cases habs : ql.sources.index msg.Body = none
  · rw [loopBody_absent br ql msg habs]
    show (ql.sources.assign msg.Body _) S ≠ none
    by_cases hB : S = msg.Body
    · subst hB
      simp [SourceMap.assign]
    · simpa [SourceMap.assign, Function.update_noteq hB] using h
  · rw [loopBody_present br ql msg habs]
    exact h

theorem index_kept_loop (br : Broker) (msgs : List Delivery) (S : String) (c : Chan) :
    ∀ ql : QueueListener, ql.sources.index S = some c →
      (ListenForNewSource.loop br ql msgs).sources.index S = some c := by
  induction msgs with
  | nil => intro ql h; simpa [ListenForNewSource.loop] using h
  | cons m ms ih =>
    intro ql h
    have := ih _ (index_kept_step br ql m S c h)
    simpa [ListenForNewSource.loop] using this

theorem key_kept_loop (br : Broker) (msgs : List Delivery) (S : String) :
    ∀ ql : QueueListener, ql.sources S ≠ none →
      (ListenForNewSource.loop br ql msgs).sources S ≠ none := by
  induction msgs with
  | nil => intro ql h; simpa [ListenForNewSource.loop] using h
  | cons m ms ih =>
    intro ql h
    have := ih _ (key_kept_step br ql m S h)
    simpa [ListenForNewSource.loop] using this

/-- C8 (counterexample): on a broker whose `Consume` returns a nil channel, the
announcements `a`, `b`, `a` on a fresh listener publish two
`DataSourceDiscovered` events for `a` and start three listener goroutines. -/
theorem failed_consume_registers_again :
    discoveredCount (ListenForNewSource.loop failingBroker NewQueueListener
      [⟨"a", ""⟩, ⟨"b", ""⟩, ⟨"a", ""⟩]).trace "a" = 2 ∧
    storeCount (ListenForNewSource.loop failingBroker NewQueueListener
      [⟨"a", ""⟩, ⟨"b", ""⟩, ⟨"a", ""⟩]).trace "a" = 2 ∧
    spawnCount (ListenForNewSource.loop failingBroker NewQueueListener
      [⟨"a", ""⟩, ⟨"b", ""⟩, ⟨"a", ""⟩]).trace = 3 := by
  decide

/-- C8 (amended): over any sequence of announcements, from any state, a key of
the registry stays a key and an identifier registered with a non-nil channel
keeps that very channel; and when `Consume` never returns a nil channel, a run
from a fresh listener publishes at most one `DataSourceDiscovered` event,
makes at most one `Consume` call and at most one registry write for any
identifier `S`, and starts as many listeners as it publishes such events. -/
theorem registry_monotone_and_single (br : Broker) (ql : QueueListener)
    (msgs : List Delivery) (S : String) :
    (∀ c : Chan, ql.sources.index S = some c →
      (ListenForNewSource.loop br ql msgs).sources.index S = some c) ∧
    (ql.sources S ≠ none → (ListenForNewSource.loop br ql msgs).sources S ≠ none) ∧
    ((∀ tr, (br.Consume tr).1 ≠ none) →
      discoveredCount (ListenForNewSource.loop br NewQueueListener msgs).trace S ≤ 1 ∧
      consumeCount (ListenForNewSource.loop br NewQueueListener msgs).trace S ≤ 1 ∧
      storeCount (ListenForNewSource.loop br NewQueueListener msgs).trace S ≤ 1 ∧
      spawnCount (ListenForNewSource.loop br NewQueueListener msgs).trace =
        eventCount (ListenForNewSource.loop br NewQueueListener msgs).trace) := by
  refine ⟨fun c h => index_kept_loop br msgs S c ql h,
    fun h => key_kept_loop br msgs S ql h, ?_⟩
  intro hbr
  obtain ⟨hle, _, hcons, hstore, hspawn⟩ :=
    RegInv_loop br hbr msgs S NewQueueListener (RegInv_new S)
  exact ⟨hle, hcons ▸ hle, hstore ▸ hle, hspawn⟩

/-- The announcements `a`, `b`, `a` on a broker that hands out channels. -/
theorem registry_monotone_and_single_witness :
    (∀ tr, (okBroker.Consume tr).1 ≠ none) ∧
    discoveredCount (ListenForNewSource.loop okBroker NewQueueListener
      [⟨"a", ""⟩, ⟨"b", ""⟩, ⟨"a", ""⟩]).trace "a" ≤ 1 :=
  ⟨fun _ => by simp [okBroker],
   ((registry_monotone_and_single okBroker NewQueueListener
     [⟨"a", ""⟩, ⟨"b", ""⟩, ⟨"a", ""⟩] "a").2.2 (fun _ => by simp [okBroker])).1⟩

end Coordinator
